import Mathlib

/-!
Verification of the MASLD Results Viewer core layer: the row filter
(filter_dataframe in data_loader.py and utils.py), the validator
(validate_results_structure), the demo-data generator (generate_demo_data),
the loader (load_all_data) and the aggregation helpers used by app.py.
Dataframes are modelled as lists of records with the fixed index.csv schema;
rationals stand for the float columns, and a possibly missing float value
(pandas NaN) is an Option. Filesystem probes are modelled as a Boolean
predicate on relative path names, and the results of the independent artifact
loaders as fields of an abstract Root record.
-/

/-- One row of index.csv: the Case record of the data model. -/
structure Row where
  case_id : String
  patient_id : String
  fold : Int
  y_true : Int
  p_calibrated : ℚ
  uncertainty_std : ℚ
  risk_band : String
deriving DecidableEq

/-- One set-membership filter stage of filter_dataframe. A stage is skipped
when the selection argument is Python None or the empty list (both are falsy
in the `if sel and len(sel) > 0` guard, and the y_true guard
`is not None and len > 0` has the same effect on list arguments); otherwise
the rows whose field value is a member of the selection are kept. -/
def memStage {α : Type} [DecidableEq α] (sel : Option (List α)) (get : Row → α)
    (df : List Row) : List Row :=
  match sel with
  | none => df
  | some l => if l.isEmpty then df else df.filter (fun r => decide (get r ∈ l))

/-- One lower-bound filter stage: `filtered[filtered[col] >= m]`, applied only
when the bound is not None. -/
def loStage (bound : Option ℚ) (get : Row → ℚ) (df : List Row) : List Row :=
  match bound with
  | none => df
  | some m => df.filter (fun r => decide (m ≤ get r))

/-- One upper-bound filter stage: `filtered[filtered[col] <= m]`, applied only
when the bound is not None. -/
def hiStage (bound : Option ℚ) (get : Row → ℚ) (df : List Row) : List Row :=
  match bound with
  | none => df
  | some m => df.filter (fun r => decide (get r ≤ m))

namespace DataLoader

/-- filter_dataframe of data_loader.py: seven optional stages applied in
source order to a copy of the input. -/
def filter_dataframe (df : List Row) (risk_bands : Option (List String))
    (y_true_values : Option (List Int)) (folds : Option (List Int))
    (prob_min prob_max uncert_min uncert_max : Option ℚ) : List Row :=
  let f1 := memStage risk_bands Row.risk_band df
  let f2 := memStage y_true_values Row.y_true f1
  let f3 := memStage folds Row.fold f2
  let f4 := loStage prob_min Row.p_calibrated f3
  let f5 := hiStage prob_max Row.p_calibrated f4
  let f6 := loStage uncert_min Row.uncertainty_std f5
  let f7 := hiStage uncert_max Row.uncertainty_std f6
  f7

/-- validate_results_structure of data_loader.py. The filesystem is modelled
by the predicate pathExists on the relative names the source joins to the
root; the function returns `(len(missing) == 0, missing)` where missing
collects the required relative names that do not exist. -/
def validate_results_structure (pathExists : String → Bool) : Bool × List String :=
  let required := ["explainability_reports/index.csv",
                   "explainability_reports/case_mapping.csv"]
  let missing := required.filter (fun req => !pathExists req)
  (decide (missing.length = 0), missing)

/-- The probability-to-band thresholds of generate_demo_data in
data_loader.py: LOW below 0.3, LOW-MOD below 0.5, MODERATE below 0.75,
HIGH otherwise. -/
def dl_band (p : ℚ) : String :=
  if p < 3/10 then "LOW"
  else if p < 1/2 then "LOW-MOD"
  else if p < 3/4 then "MODERATE"
  else "HIGH"

end DataLoader

/-- The per-index draws the seeded numpy generator yields after
`np.random.seed(42)` in generate_demo_data of data_loader.py. Seeding resets
the global generator, so every call observes the same mathematical function
of the fixed seed 42; two calls therefore share one DemoDraws value. -/
structure DemoDraws where
  fold : Nat → Int
  y_true : Nat → Int
  p_calibrated : Nat → ℚ
  uncertainty_std : Nat → ℚ

/-- Two-digit zero-padded rendering of a case number, as in the Python
format string of generate_demo_data. -/
def pad2 (i : Nat) : String := if i < 10 then "0" ++ toString i else toString i

/-- A demo case identifier Case-NN. -/
def demoCaseId (i : Nat) : String := "Case-" ++ pad2 i

namespace DataLoader

/-- generate_demo_data of data_loader.py: 25 synthetic rows, case ids
Case-01 .. Case-25, risk_band derived from p_calibrated by dl_band. -/
def generate_demo_data (d : DemoDraws) : List Row :=
  (List.range 25).map (fun i =>
    { case_id := demoCaseId (i + 1)
      patient_id := "DEMO-" ++ toString (i + 1)
      fold := d.fold i
      y_true := d.y_true i
      p_calibrated := d.p_calibrated i
      uncertainty_std := d.uncertainty_std i
      risk_band := dl_band (d.p_calibrated i) })

end DataLoader

/-- The artifact availability flags computed by check_artifacts, or written
literally by the demo branch of load_all_data. -/
structure Artifacts where
  index_csv : Bool
  case_mapping : Bool
  case_images : Bool
  case_image_count : Nat
  metrics_summary : Bool
  run_config : Bool
  calibration_plots : Bool
  roc_curves : Bool
  pr_curves : Bool
  confusion_matrix : Bool
deriving DecidableEq

/-- A results root as the five independent loader probes of data_loader.py
see it: each field is the value the corresponding loader returns (none for a
missing or unparsable artifact, per the best-effort policy). -/
structure Root where
  index_df : Option (List Row)
  case_mapping : Option (List (String × String))
  metrics_summary : Option (List (String × ℚ))
  run_config : Option (List (String × String))
  artifacts : Artifacts

/-- The in-memory bundle load_all_data returns. -/
structure Bundle where
  index_df : Option (List Row)
  case_mapping : Option (List (String × String))
  metrics_summary : Option (List (String × ℚ))
  run_config : Option (List (String × String))
  artifacts : Artifacts
  is_demo : Bool
deriving DecidableEq

namespace DataLoader

/-- The literal artifacts dictionary of the demo branch of load_all_data. -/
def demoArtifacts : Artifacts :=
  { index_csv := true
    case_mapping := true
    case_images := false
    case_image_count := 0
    metrics_summary := false
    run_config := false
    calibration_plots := false
    roc_curves := false
    pr_curves := false
    confusion_matrix := false }

/-- load_all_data of data_loader.py: the demo branch ignores the root and
builds a synthetic bundle; the other branch packages the five loader
results. -/
def load_all_data (d : DemoDraws) (root : Root) (demo_mode : Bool) : Bundle :=
  if demo_mode then
    { index_df := some (generate_demo_data d)
      case_mapping := none
      metrics_summary := none
      run_config := none
      artifacts := demoArtifacts
      is_demo := true }
  else
    { index_df := root.index_df
      case_mapping := root.case_mapping
      metrics_summary := root.metrics_summary
      run_config := root.run_config
      artifacts := root.artifacts
      is_demo := false }

end DataLoader

namespace Utils

/-- filter_dataframe of utils.py, a second copy of the same seven-stage
filter (the two source bodies are line-for-line identical). -/
def filter_dataframe (df : List Row) (risk_bands : Option (List String))
    (y_true_values : Option (List Int)) (folds : Option (List Int))
    (prob_min prob_max uncert_min uncert_max : Option ℚ) : List Row :=
  let f1 := memStage risk_bands Row.risk_band df
  let f2 := memStage y_true_values Row.y_true f1
  let f3 := memStage folds Row.fold f2
  let f4 := loStage prob_min Row.p_calibrated f3
  let f5 := hiStage prob_max Row.p_calibrated f4
  let f6 := loStage uncert_min Row.uncertainty_std f5
  let f7 := hiStage uncert_max Row.uncertainty_std f6
  f7

/-- validate_results_structure of utils.py, identical to the data_loader.py
copy. -/
def validate_results_structure (pathExists : String → Bool) : Bool × List String :=
  let required := ["explainability_reports/index.csv",
                   "explainability_reports/case_mapping.csv"]
  let missing := required.filter (fun req => !pathExists req)
  (decide (missing.length = 0), missing)

/-- The probability-to-band thresholds of generate_demo_data in utils.py:
LOW below 0.3, LOW-MOD below 0.6, MODERATE below 0.8, HIGH otherwise. -/
def utils_band (p : ℚ) : String :=
  if p < 3/10 then "LOW"
  else if p < 3/5 then "LOW-MOD"
  else if p < 4/5 then "MODERATE"
  else "HIGH"

end Utils

/-- The draws of generate_demo_data in utils.py: 20 cases, and the
probability column comes from one of two beta streams picked by a coin. -/
structure UtilsDraws where
  fold : Nat → Int
  y_true : Nat → Int
  coin : Bool
  pA : Nat → ℚ
  pB : Nat → ℚ
  uncertainty_std : Nat → ℚ

namespace Utils

/-- generate_demo_data of utils.py: 20 synthetic rows, risk_band derived
from p_calibrated by utils_band. -/
def generate_demo_data (d : UtilsDraws) : List Row :=
  let p := fun i => if d.coin then d.pA i else d.pB i
  (List.range 20).map (fun i =>
    { case_id := demoCaseId (i + 1)
      patient_id := "DEMO-" ++ toString (i + 1)
      fold := d.fold i
      y_true := d.y_true i
      p_calibrated := p i
      uncertainty_std := d.uncertainty_std i
      risk_band := utils_band (p i) })

/-- The summary record built by compute_summary_metrics of utils.py when the
dataframe is not empty. -/
structure SummaryMetrics where
  n_cases : Nat
  n_masld : Int
  n_healthy : Nat
  mean_probability : ℚ
  mean_uncertainty : ℚ
  risk_band_dist : String → Nat

/-- compute_summary_metrics of utils.py: the empty dataframe returns the
empty dictionary, modelled as none; otherwise counts, sums and column means
(the schema is fixed, so every column is present). -/
def compute_summary_metrics (df : List Row) : Option SummaryMetrics :=
  if df.isEmpty then none
  else some
    { n_cases := df.length
      n_masld := (df.map Row.y_true).sum
      n_healthy := (df.filter (fun r => decide (r.y_true = 0))).length
      mean_probability := (df.map Row.p_calibrated).sum / df.length
      mean_uncertainty := (df.map Row.uncertainty_std).sum / df.length
      risk_band_dist := fun b => (df.filter (fun r => decide (r.risk_band = b))).length }

end Utils

namespace App

/-- The pandas column mean: NaN (modelled none) on an empty series,
otherwise the sum divided by the length. -/
def seriesMean (xs : List ℚ) : Option ℚ :=
  if xs.isEmpty then none else some (xs.sum / xs.length)

/-- The avg_prob computation of page_dashboard in app.py:
`filtered_df[col].mean() if col in filtered_df.columns else 0`. The hasCol
flag models the column-presence test; the mean of an empty column is NaN. -/
def dashboard_avg_prob (hasCol : Bool) (df : List Row) : Option ℚ :=
  if hasCol then seriesMean (df.map Row.p_calibrated) else some 0

/-- Descending comparison along a numeric key: a may come before b when the
key of a is at least the key of b. -/
def keyDesc (key : Row → ℚ) : Row → Row → Prop := fun a b => key b ≤ key a

instance (key : Row → ℚ) : DecidableRel (keyDesc key) :=
  fun a b => inferInstanceAs (Decidable (key b ≤ key a))

instance (key : Row → ℚ) : IsTotal Row (keyDesc key) :=
  ⟨fun a b => le_total (key b) (key a)⟩

instance (key : Row → ℚ) : IsTrans Row (keyDesc key) :=
  ⟨fun _ _ _ hab hbc => le_trans hbc hab⟩

/-- The nlargest calls of page_dashboard in app.py: pandas nlargest with the
default keep equal to first, i.e. a stable descending sort by the column
followed by taking the first n rows. -/
def topN (n : Nat) (key : Row → ℚ) (df : List Row) : List Row :=
  (List.insertionSort (keyDesc key) df).take n

end App

/-- Calling data_loader.py filter_dataframe with a possibly absent dataframe:
the body starts with `filtered = df.copy()`, which on Python None raises
AttributeError before any filter stage runs. -/
def filter_dataframe_checked (df : Option (List Row))
    (risk_bands : Option (List String)) (y_true_values : Option (List Int))
    (folds : Option (List Int)) (prob_min prob_max uncert_min uncert_max : Option ℚ) :
    Except String (List Row) :=
  match df with
  | none => Except.error "AttributeError"
  | some d => Except.ok
      (DataLoader.filter_dataframe d risk_bands y_true_values folds
        prob_min prob_max uncert_min uncert_max)

/-! ## Stage lemmas for the seven-stage filter -/

theorem mem_memStage {α : Type} [DecidableEq α] (sel : Option (List α))
    (get : Row → α) (df : List Row) (r : Row) :
    r ∈ memStage sel get df ↔
      r ∈ df ∧ (∀ l, sel = some l → l ≠ [] → get r ∈ l) := by
  cases sel with
  | none => simp [memStage]
  | some l =>
    by_cases h : l.isEmpty
    · rw [List.isEmpty_iff] at h
      subst h
      simp [memStage]
    · rw [List.isEmpty_iff] at h
      simp [memStage, List.isEmpty_iff, h, List.mem_filter]

theorem mem_loStage (bound : Option ℚ) (get : Row → ℚ) (df : List Row) (r : Row) :
    r ∈ loStage bound get df ↔
      r ∈ df ∧ (∀ m, bound = some m → m ≤ get r) := by
  cases bound with
  | none => simp [loStage]
  | some m => simp [loStage, List.mem_filter]

theorem mem_hiStage (bound : Option ℚ) (get : Row → ℚ) (df : List Row) (r : Row) :
    r ∈ hiStage bound get df ↔
      r ∈ df ∧ (∀ m, bound = some m → get r ≤ m) := by
  cases bound with
  | none => simp [hiStage]
  | some m => simp [hiStage, List.mem_filter]

/-- C1: soundness and completeness of the conjunctive filter. A row is in the
output of data_loader.py filter_dataframe exactly when it is an input row,
its risk_band is in the risk-band selection whenever that selection is a
non-empty list, its y_true and fold are likewise in their non-empty
selections, and its p_calibrated and uncertainty_std respect every supplied
range bound, both bounds inclusive. -/
theorem C1_filter_sound_complete (df : List Row) (rb : Option (List String))
    (ytv : Option (List Int)) (fd : Option (List Int))
    (pmin pmax umin umax : Option ℚ) (r : Row) :
    r ∈ DataLoader.filter_dataframe df rb ytv fd pmin pmax umin umax ↔
      r ∈ df
      ∧ (∀ l, rb = some l → l ≠ [] → r.risk_band ∈ l)
      ∧ (∀ l, ytv = some l → l ≠ [] → r.y_true ∈ l)
      ∧ (∀ l, fd = some l → l ≠ [] → r.fold ∈ l)
      ∧ (∀ m, pmin = some m → m ≤ r.p_calibrated)
      ∧ (∀ m, pmax = some m → r.p_calibrated ≤ m)
      ∧ (∀ m, umin = some m → m ≤ r.uncertainty_std)
      ∧ (∀ m, umax = some m → r.uncertainty_std ≤ m) := by
  unfold DataLoader.filter_dataframe
  rw [mem_hiStage, mem_loStage, mem_hiStage, mem_loStage,
      mem_memStage, mem_memStage, mem_memStage]
  tauto

/-! ## Identity behaviour of the stages -/

theorem memStage_no_constraint {α : Type} [DecidableEq α] (sel : Option (List α))
    (get : Row → α) (df : List Row) (h : sel = none ∨ sel = some []) :
    memStage sel get df = df := by
  rcases h with h | h <;> subst h <;> rfl

theorem loStage_all (m : ℚ) (get : Row → ℚ) (df : List Row)
    (h : ∀ r ∈ df, m ≤ get r) :
    loStage (some m) get df = df := by
  simp only [loStage]
  exact List.filter_eq_self.mpr (fun r hr => decide_eq_true (h r hr))

theorem hiStage_all (m : ℚ) (get : Row → ℚ) (df : List Row)
    (h : ∀ r ∈ df, get r ≤ m) :
    hiStage (some m) get df = df := by
  simp only [hiStage]
  exact List.filter_eq_self.mpr (fun r hr => decide_eq_true (h r hr))

/-- C2: identity law of the filter. When each set-membership argument is
Python None or the empty list, the probability range is the full interval
from 0 to 1, and the uncertainty range runs from 0 to a bound covering every
row, filter_dataframe returns the input unchanged; in particular an empty
selection list constrains nothing rather than matching nothing. -/
theorem C2_filter_identity (df : List Row) (rb : Option (List String))
    (ytv : Option (List Int)) (fd : Option (List Int)) (umax : ℚ)
    (hrb : rb = none ∨ rb = some []) (hy : ytv = none ∨ ytv = some [])
    (hf : fd = none ∨ fd = some [])
    (hp : ∀ r ∈ df, 0 ≤ r.p_calibrated ∧ r.p_calibrated ≤ 1)
    (hu : ∀ r ∈ df, 0 ≤ r.uncertainty_std ∧ r.uncertainty_std ≤ umax) :
    DataLoader.filter_dataframe df rb ytv fd
      (some 0) (some 1) (some 0) (some umax) = df := by
  simp only [DataLoader.filter_dataframe]
  rw [memStage_no_constraint rb _ _ hrb, memStage_no_constraint ytv _ _ hy,
      memStage_no_constraint fd _ _ hf,
      loStage_all 0 _ _ (fun r hr => (hp r hr).1),
      hiStage_all 1 _ _ (fun r hr => (hp r hr).2),
      loStage_all 0 _ _ (fun r hr => (hu r hr).1),
      hiStage_all umax _ _ (fun r hr => (hu r hr).2)]

/-- A small concrete dataframe used by the closed witness statements. -/
def sampleDf : List Row :=
  [{ case_id := "Case-01", patient_id := "DEMO-1", fold := 0, y_true := 1,
     p_calibrated := 1/2, uncertainty_std := 1/20, risk_band := "MODERATE" },
   { case_id := "Case-02", patient_id := "DEMO-2", fold := 1, y_true := 0,
     p_calibrated := 9/10, uncertainty_std := 3/25, risk_band := "HIGH" },
   { case_id := "Case-03", patient_id := "DEMO-3", fold := 2, y_true := 1,
     p_calibrated := 1/2, uncertainty_std := 1/10, risk_band := "MODERATE" }]

/-- C2 witness: the identity law evaluated on a concrete three-row
dataframe with empty selections and full ranges. -/
theorem C2_filter_identity_witness :
    DataLoader.filter_dataframe sampleDf none (some []) none
      (some 0) (some 1) (some 0) (some 1) = sampleDf :=
  C2_filter_identity sampleDf none (some []) none 1
    (Or.inl rfl) (Or.inr rfl) (Or.inl rfl)
    (by intro r hr; fin_cases hr <;> norm_num [sampleDf])
    (by intro r hr; fin_cases hr <;> norm_num [sampleDf])

/-! ## Behaviour on an absent or empty dataframe -/

theorem memStage_nil {α : Type} [DecidableEq α] (sel : Option (List α))
    (get : Row → α) : memStage sel get [] = [] := by
  cases sel with
  | none => rfl
  | some l =>
    by_cases h : l.isEmpty <;> simp [memStage, h]

theorem loStage_nil (bound : Option ℚ) (get : Row → ℚ) :
    loStage bound get [] = [] := by
  cases bound <;> rfl

theorem hiStage_nil (bound : Option ℚ) (get : Row → ℚ) :
    hiStage bound get [] = [] := by
  cases bound <;> rfl

/-- C4 counterexample: filter_dataframe applied to an absent (Python None)
dataframe does not return the input unchanged without raising; the very
first statement of the body, `filtered = df.copy()`, raises AttributeError,
so the call produces an error rather than a dataframe. -/
theorem C4_none_input_counterexample :
    filter_dataframe_checked none none none none none none none none =
      Except.error "AttributeError" := rfl

/-- C4 as amended: for every filter state, filter_dataframe on an empty
dataframe (with the usual schema) returns it unchanged without raising,
while a call on an absent (None) dataframe raises AttributeError; the app
callers guard the None case before filtering. -/
theorem C4_empty_input_amended (rb : Option (List String))
    (ytv : Option (List Int)) (fd : Option (List Int))
    (pmin pmax umin umax : Option ℚ) :
    DataLoader.filter_dataframe [] rb ytv fd pmin pmax umin umax = []
    ∧ filter_dataframe_checked (some []) rb ytv fd pmin pmax umin umax =
        Except.ok []
    ∧ filter_dataframe_checked none rb ytv fd pmin pmax umin umax =
        Except.error "AttributeError" := by
  have hfd : DataLoader.filter_dataframe [] rb ytv fd pmin pmax umin umax = [] := by
    simp only [DataLoader.filter_dataframe]
    rw [memStage_nil, memStage_nil, memStage_nil, loStage_nil, hiStage_nil,
        loStage_nil, hiStage_nil]
  refine ⟨hfd, ?_, rfl⟩
  simp only [filter_dataframe_checked, hfd]

/-- C9: the two filter implementations, filter_dataframe of data_loader.py
and filter_dataframe of utils.py, agree on every dataframe and every
combination of arguments (the two source bodies are identical). -/
theorem C9_filter_implementations_equal (df : List Row)
    (rb : Option (List String)) (ytv : Option (List Int))
    (fd : Option (List Int)) (pmin pmax umin umax : Option ℚ) :
    DataLoader.filter_dataframe df rb ytv fd pmin pmax umin umax =
      Utils.filter_dataframe df rb ytv fd pmin pmax umin umax := rfl

/-! ## Validator -/

/-- C10: coherence of the validator results. isValid is true exactly when
the missing list is empty; the missing list is an in-order sublist of the
fixed two-element required list, so it has at most two entries and no other
names; and the utils.py copy returns the same pair. -/
theorem C10_validator_coherent (pathExists : String → Bool) :
    ((DataLoader.validate_results_structure pathExists).1 = true ↔
       (DataLoader.validate_results_structure pathExists).2 = [])
    ∧ (DataLoader.validate_results_structure pathExists).2.Sublist
        ["explainability_reports/index.csv",
         "explainability_reports/case_mapping.csv"]
    ∧ (DataLoader.validate_results_structure pathExists).2.length ≤ 2
    ∧ Utils.validate_results_structure pathExists =
        DataLoader.validate_results_structure pathExists := by
  refine ⟨?_, ?_, ?_, rfl⟩
  · simp [DataLoader.validate_results_structure, List.length_eq_zero]
  · exact List.filter_sublist _
  · simpa using
      List.length_filter_le (fun req => !pathExists req)
        ["explainability_reports/index.csv",
         "explainability_reports/case_mapping.csv"]

/-- C6: a root where index.csv exists and case_mapping.csv does not makes
the validator return isValid false with exactly the one relative name
explainability_reports/case_mapping.csv missing; moreover every entry of the
missing list is one of the two fixed relative artifact names, never an
absolute path. -/
theorem C6_validator_missing_mapping (pathExists : String → Bool)
    (h1 : pathExists "explainability_reports/index.csv" = true)
    (h2 : pathExists "explainability_reports/case_mapping.csv" = false) :
    DataLoader.validate_results_structure pathExists =
      (false, ["explainability_reports/case_mapping.csv"])
    ∧ (∀ s, s ∈ (DataLoader.validate_results_structure pathExists).2 →
        s ∈ ["explainability_reports/index.csv",
             "explainability_reports/case_mapping.csv"]) := by
  constructor
  · simp [DataLoader.validate_results_structure, h1, h2]
  · intro s hs
    exact (List.filter_sublist _).mem hs

/-- A concrete filesystem for the C6 witness: only index.csv exists. -/
def onlyIndexExists : String → Bool :=
  fun s => s == "explainability_reports/index.csv"

/-- C6 witness: the validator scenario evaluated on the concrete root where
only index.csv exists. -/
theorem C6_validator_missing_mapping_witness :
    DataLoader.validate_results_structure onlyIndexExists =
      (false, ["explainability_reports/case_mapping.csv"])
    ∧ (∀ s, s ∈ (DataLoader.validate_results_structure onlyIndexExists).2 →
        s ∈ ["explainability_reports/index.csv",
             "explainability_reports/case_mapping.csv"]) :=
  C6_validator_missing_mapping onlyIndexExists rfl rfl

/-! ## Aggregation over an empty view -/

/-- C3 counterexample: the mean aggregation over an empty view does not
return 0. The dashboard computation on an empty filtered dataframe whose
probability column is present yields the pandas NaN (modelled none), and
compute_summary_metrics on an empty dataframe returns the empty dictionary
(modelled none); the documented 0 default applies only when the column is
absent. -/
theorem C3_empty_mean_counterexample :
    ¬ (App.dashboard_avg_prob true [] = some 0)
    ∧ App.dashboard_avg_prob true [] = none
    ∧ Utils.compute_summary_metrics [] = none :=
  ⟨fun h => Option.noConfusion h, rfl, rfl⟩

/-- C3 as amended: on an empty view the mean aggregation yields the pandas
NaN (an undefined value, modelled none) when the field column is present,
and the summary-metrics reducer returns an empty record; the 0 default is
produced only when the field column is absent from the view. Neither path
raises. -/
theorem C3_empty_mean_amended (df : List Row) (h : df = []) :
    App.dashboard_avg_prob true df = none
    ∧ App.dashboard_avg_prob false df = some 0
    ∧ Utils.compute_summary_metrics df = none := by
  subst h
  exact ⟨rfl, rfl, rfl⟩

/-- C3 witness: the amended statement evaluated at the empty view. -/
theorem C3_empty_mean_witness :
    App.dashboard_avg_prob true [] = none
    ∧ App.dashboard_avg_prob false [] = some 0
    ∧ Utils.compute_summary_metrics [] = none :=
  C3_empty_mean_amended [] rfl

/-! ## Demo loader determinism -/

/-- C7: demo-mode loading is deterministic and ignores the root. Two loader
calls with demo mode on and the same seeded draw stream produce equal
bundles whatever roots they are given; the bundle carries the demo flag and
the synthetic index, and the case_id sequence is the fixed list
Case-01 .. Case-25 independent of every draw. -/
theorem C7_demo_deterministic (d : DemoDraws) (root1 root2 : Root) :
    DataLoader.load_all_data d root1 true = DataLoader.load_all_data d root2 true
    ∧ (DataLoader.load_all_data d root1 true).is_demo = true
    ∧ (DataLoader.load_all_data d root1 true).index_df =
        some (DataLoader.generate_demo_data d)
    ∧ (DataLoader.generate_demo_data d).map Row.case_id =
        ["Case-01", "Case-02", "Case-03", "Case-04", "Case-05",
         "Case-06", "Case-07", "Case-08", "Case-09", "Case-10",
         "Case-11", "Case-12", "Case-13", "Case-14", "Case-15",
         "Case-16", "Case-17", "Case-18", "Case-19", "Case-20",
         "Case-21", "Case-22", "Case-23", "Case-24", "Case-25"] := by
  refine ⟨rfl, rfl, rfl, ?_⟩
  rfl

/-! ## Demo risk-band consistency -/

/-- C8: in every synthetic demo row the stored risk_band equals the band
implied by that row p_calibrated value under the generator threshold policy,
and that policy is a monotonic, non-overlapping partition of the whole line
(hence of the interval from 0 to 1) into exactly the four bands LOW,
LOW-MOD, MODERATE, HIGH in ascending order of risk. This holds for the
data_loader.py generator (thresholds 0.3, 0.5, 0.75, the demo bundle the
app loads) and for the utils.py copy (thresholds 0.3, 0.6, 0.8). -/
theorem C8_demo_band_consistency (d : DemoDraws) (d2 : UtilsDraws) (p : ℚ) :
    ((DataLoader.generate_demo_data d).all
        (fun r => decide (r.risk_band = DataLoader.dl_band r.p_calibrated)) = true)
    ∧ ((Utils.generate_demo_data d2).all
        (fun r => decide (r.risk_band = Utils.utils_band r.p_calibrated)) = true)
    ∧ (DataLoader.dl_band p = "LOW" ↔ p < 3/10)
    ∧ (DataLoader.dl_band p = "LOW-MOD" ↔ 3/10 ≤ p ∧ p < 1/2)
    ∧ (DataLoader.dl_band p = "MODERATE" ↔ 1/2 ≤ p ∧ p < 3/4)
    ∧ (DataLoader.dl_band p = "HIGH" ↔ 3/4 ≤ p)
    ∧ (Utils.utils_band p = "LOW" ↔ p < 3/10)
    ∧ (Utils.utils_band p = "LOW-MOD" ↔ 3/10 ≤ p ∧ p < 3/5)
    ∧ (Utils.utils_band p = "MODERATE" ↔ 3/5 ≤ p ∧ p < 4/5)
    ∧ (Utils.utils_band p = "HIGH" ↔ 4/5 ≤ p) := by
  refine ⟨?_, ?_, ?_, ?_, ?_, ?_, ?_, ?_, ?_, ?_⟩
  · simp [DataLoader.generate_demo_data, List.all_eq_true]
  · simp [Utils.generate_demo_data, List.all_eq_true]
  all_goals
    first
      | (unfold DataLoader.dl_band
         split_ifs with h1 h2 h3 <;> simp_all <;> intros <;> linarith)
      | (unfold Utils.utils_band
         split_ifs with h1 h2 h3 <;> simp_all <;> intros <;> linarith)

/-! ## topN: descending, stable, bounded -/

theorem filter_orderedInsert_key (key : Row → ℚ) (c : ℚ) (x : Row) :
    ∀ l : List Row,
      (List.orderedInsert (App.keyDesc key) x l).filter
          (fun r => decide (key r = c)) =
        if key x = c then x :: l.filter (fun r => decide (key r = c))
        else l.filter (fun r => decide (key r = c))
  | [] => by
    by_cases h : key x = c <;> simp [List.orderedInsert, h]
  | b :: l => by
    by_cases hxb : App.keyDesc key x b
    · by_cases h : key x = c <;>
        simp [List.orderedInsert, hxb, List.filter_cons, h]
    · have hlt : key x < key b := lt_of_not_le hxb
      by_cases h : key x = c
      · have hb : ¬ (key b = c) := by
          intro hb
          rw [hb, ← h] at hlt
          exact lt_irrefl _ hlt
        simp [List.orderedInsert, hxb, List.filter_cons, h, hb,
              filter_orderedInsert_key key c x l]
      · by_cases hb : key b = c <;>
          simp [List.orderedInsert, hxb, List.filter_cons, h, hb,
                filter_orderedInsert_key key c x l]

theorem insertionSort_filter_key (key : Row → ℚ) (c : ℚ) :
    ∀ l : List Row,
      (List.insertionSort (App.keyDesc key) l).filter
          (fun r => decide (key r = c)) =
        l.filter (fun r => decide (key r = c))
  | [] => rfl
  | b :: l => by
    by_cases h : key b = c <;>
      simp [List.insertionSort, filter_orderedInsert_key, h,
            insertionSort_filter_key key c l, List.filter_cons]

/-- C5: the nlargest-based topN returns records in descending key order
(adjacent pairs only decrease), its length is the minimum of n and the view
size (so a view with fewer than n records is returned whole), and with n at
least the view size it returns a permutation of the whole view in which the
rows carrying any fixed key value keep their original relative order (the
stable-sort tie rule). -/
theorem C5_topN_spec (df : List Row) (key : Row → ℚ) (n m : Nat) (c : ℚ)
    (h : df.length ≤ n) :
    (App.topN m key df).Pairwise (fun a b => key b ≤ key a)
    ∧ (App.topN m key df).length = min m df.length
    ∧ List.Perm (App.topN n key df) df
    ∧ (App.topN n key df).filter (fun r => decide (key r = c)) =
        df.filter (fun r => decide (key r = c)) := by
  have hsort : (List.insertionSort (App.keyDesc key) df).Pairwise (App.keyDesc key) :=
    List.sorted_insertionSort (App.keyDesc key) df
  have hperm : List.Perm (List.insertionSort (App.keyDesc key) df) df :=
    List.perm_insertionSort (App.keyDesc key) df
  have hlen : (List.insertionSort (App.keyDesc key) df).length = df.length :=
    hperm.length_eq
  have htake : App.topN n key df = List.insertionSort (App.keyDesc key) df := by
    unfold App.topN
    apply List.take_of_length_le
    rw [hlen]
    exact h
  refine ⟨?_, ?_, ?_, ?_⟩
  · exact hsort.sublist (List.take_sublist m _)
  · unfold App.topN
    rw [List.length_take, hlen]
  · rw [htake]
    exact hperm
  · rw [htake]
    exact insertionSort_filter_key key c df

/-- C5 witness: topN evaluated on the concrete three-row dataframe, with a
tie on the probability 1/2 rows, for m below the size and n above it. -/
theorem C5_topN_witness :
    (App.topN 2 Row.p_calibrated sampleDf).Pairwise
        (fun a b => b.p_calibrated ≤ a.p_calibrated)
    ∧ (App.topN 2 Row.p_calibrated sampleDf).length = min 2 sampleDf.length
    ∧ List.Perm (App.topN 5 Row.p_calibrated sampleDf) sampleDf
    ∧ (App.topN 5 Row.p_calibrated sampleDf).filter
        (fun r => decide (r.p_calibrated = 1/2)) =
      sampleDf.filter (fun r => decide (r.p_calibrated = 1/2)) :=
  C5_topN_spec sampleDf Row.p_calibrated 5 2 (1/2) (by decide)
